import Mathlib

/-!
Verification of the mimir continuous-test core and query-frontend retry
middleware against its natural-language specification.

The Go source is shallowly embedded:
* `time.Time` values are modelled as `Int` milliseconds since the Unix epoch.
  Go's zero `time.Time` (January 1, year 1 UTC) corresponds to
  `goZeroTime = -62135596800000` milliseconds; `IsZero` becomes equality with
  that constant.  `time.Duration` values are `Int` milliseconds.
* `float64` arithmetic is modelled as exact rational arithmetic (`ℚ`).
* The opaque write/query client is modelled as an oracle function parameter;
  nondeterministic randomness (`rand.Int63n`) is a function parameter.
* Fallible paths return `Option`/`Bool` error indicators mirroring the Go
  `error` results.
-/

namespace Mimir

/-- `UnixMilli` of Go's zero `time.Time` (January 1, year 1 UTC):
`-62135596800 * 1000` milliseconds. -/
def goZeroTime : Int := -62135596800000

/-- `writeInterval = 20 * time.Second`, in milliseconds. -/
def writeInterval : Int := 20000

/-- `writeMaxAge = 50 * time.Minute`, in milliseconds. -/
def writeMaxAge : Int := 3000000

/-- `maxComparisonDelta = 0.001` as an exact rational. -/
def maxComparisonDelta : ℚ := 1/1000

/-- Embeds `alignTimestampToInterval(ts, interval) = ts.Truncate(interval)`:
Go's `Time.Truncate` rounds down to a multiple of the interval counted from
the zero time. -/
def alignTimestampToInterval (ts interval : Int) : Int :=
  ts - (ts - goZeroTime) % interval

/-- Embeds `minTime`: `if first.After(second) return second; return first`. -/
def minTime (first second : Int) : Int :=
  if second < first then second else first

/-- Embeds `maxTime`: `if first.After(second) return first; return second`. -/
def maxTime (first second : Int) : Int :=
  if second < first then first else second

/-- Embeds `compareSampleValues`:
`delta := math.Abs((actual - expected) / maxComparisonDelta);
 return delta < maxComparisonDelta`. -/
def compareSampleValues (actual expected : ℚ) : Bool :=
  decide (|(actual - expected) / maxComparisonDelta| < maxComparisonDelta)

/-- Embeds `MetricHistory` (three `time.Time` fields, zero value =
`goZeroTime` in each field). -/
structure MetricHistory where
  lastWrittenTimestamp : Int
  queryMinTime : Int
  queryMaxTime : Int
deriving DecidableEq, Repr

/-- The zero value of `MetricHistory` (all three `time.Time` fields zero). -/
def zeroHistory : MetricHistory :=
  ⟨goZeroTime, goZeroTime, goZeroTime⟩

/-- Embeds `model.SamplePair` (timestamp in milliseconds, float value as ℚ). -/
structure SamplePair where
  timestamp : Int
  value : ℚ
deriving DecidableEq, Repr

/-- Embeds `model.SampleHistogram` restricted to the fields the core reads
(`Sum` is the only one consulted by the verifier; `Count` is kept for
completeness). -/
structure SampleHistogram where
  count : ℚ
  sum : ℚ
deriving DecidableEq, Repr

/-- Embeds `model.SampleHistogramPair`; the `Histogram` field is a nullable
pointer, hence `Option`. -/
structure SampleHistogramPair where
  timestamp : Int
  histogram : Option SampleHistogram
deriving DecidableEq, Repr

/-- Embeds `model.SampleStream` restricted to the fields read by
`verifySamplesSum` (`Values` and `Histograms`). -/
structure SampleStream where
  values : List SamplePair
  histograms : List SampleHistogramPair
deriving DecidableEq, Repr

/-- Embeds `model.Matrix`. -/
def Matrix := List SampleStream

/-- The distinct error results of `verifySamplesSum`, one constructor per
`fmt.Errorf` site, carrying the data interpolated into the message. -/
inductive VerifyError where
  | wrongSeriesCount (got : Nat)
  | mixedTypes
  | noSamples
  | nullHistogram
  | wrongValue (ts : Int) (actual expected : ℚ)
  | gap (ts expectedTs nextTs : Int)
deriving DecidableEq, Repr

/-- The per-index checks of the float branch of `verifySamplesSum`: the value
assertion, then (when a newer sample exists) the no-gap timestamp assertion. -/
def checkSampleAt (generateValue : Int → ℚ) (expectedSeries : Nat)
    (expectedStep : Int) (samples : List SamplePair) (idx : Nat) :
    Option VerifyError :=
  match samples.get? idx with
  | none => none
  | some sample =>
    let expectedValue := generateValue sample.timestamp * expectedSeries
    if ¬ (compareSampleValues sample.value expectedValue = true) then
      some (.wrongValue sample.timestamp sample.value expectedValue)
    else
      match samples.get? (idx + 1) with
      | none => none
      | some next =>
        let expectedTs := next.timestamp - expectedStep
        if sample.timestamp ≠ expectedTs then
          some (.gap sample.timestamp expectedTs next.timestamp)
        else
          none

/-- The per-index checks of the histogram branch of `verifySamplesSum`:
null-pointer check, value assertion on `Sum`, then the no-gap assertion. -/
def checkHistogramAt (generateValue : Int → ℚ) (expectedSeries : Nat)
    (expectedStep : Int) (histograms : List SampleHistogramPair) (idx : Nat) :
    Option VerifyError :=
  match histograms.get? idx with
  | none => none
  | some pair =>
    match pair.histogram with
    | none => some .nullHistogram
    | some h =>
      let expectedValue := generateValue pair.timestamp * expectedSeries
      if ¬ (compareSampleValues h.sum expectedValue = true) then
        some (.wrongValue pair.timestamp h.sum expectedValue)
      else
        match histograms.get? (idx + 1) with
        | none => none
        | some next =>
          let expectedTs := next.timestamp - expectedStep
          if pair.timestamp ≠ expectedTs then
            some (.gap pair.timestamp expectedTs next.timestamp)
          else
            none

/-- The backward loop of the float branch of `verifySamplesSum`: Go iterates
`idx` from `len(samples)-1` down to `0`, returning on the first failed check
with the `lastMatchingIdx` accumulated so far, and setting
`lastMatchingIdx = idx` after each successful iteration. -/
def verifySamplesFrom (generateValue : Int → ℚ) (expectedSeries : Nat)
    (expectedStep : Int) (samples : List SamplePair) :
    Nat → Int → Int × Option VerifyError
  | 0, lastMatchingIdx =>
    match checkSampleAt generateValue expectedSeries expectedStep samples 0 with
    | some e => (lastMatchingIdx, some e)
    | none => (0, none)
  | idx + 1, lastMatchingIdx =>
    match checkSampleAt generateValue expectedSeries expectedStep samples (idx + 1) with
    | some e => (lastMatchingIdx, some e)
    | none => verifySamplesFrom generateValue expectedSeries expectedStep samples idx (idx + 1)

/-- The backward loop of the histogram branch of `verifySamplesSum`. -/
def verifyHistogramsFrom (generateValue : Int → ℚ) (expectedSeries : Nat)
    (expectedStep : Int) (histograms : List SampleHistogramPair) :
    Nat → Int → Int × Option VerifyError
  | 0, lastMatchingIdx =>
    match checkHistogramAt generateValue expectedSeries expectedStep histograms 0 with
    | some e => (lastMatchingIdx, some e)
    | none => (0, none)
  | idx + 1, lastMatchingIdx =>
    match checkHistogramAt generateValue expectedSeries expectedStep histograms (idx + 1) with
    | some e => (lastMatchingIdx, some e)
    | none => verifyHistogramsFrom generateValue expectedSeries expectedStep histograms idx (idx + 1)

/-- Embeds `verifySamplesSum(matrix, expectedSeries, expectedStep,
generateValue) → (lastMatchingIdx, err)`.  `lastMatchingIdx` starts at `-1`;
the matrix must hold exactly one series containing only floats or only
histograms; the chosen branch iterates newest → oldest. -/
def verifySamplesSum (matrix : Matrix) (expectedSeries : Nat)
    (expectedStep : Int) (generateValue : Int → ℚ) :
    Int × Option VerifyError :=
  match matrix with
  | [stream] =>
    let samples := stream.values
    let histograms := stream.histograms
    let haveSamples := decide (samples.length > 0)
    let haveHistograms := decide (histograms.length > 0)
    if haveSamples && haveHistograms then
      (-1, some .mixedTypes)
    else if !haveSamples && !haveHistograms then
      (-1, some .noSamples)
    else if haveHistograms then
      verifyHistogramsFrom generateValue expectedSeries expectedStep histograms
        (histograms.length - 1) (-1)
    else
      verifySamplesFrom generateValue expectedSeries expectedStep samples
        (samples.length - 1) (-1)
  | other => (-1, some (.wrongSeriesCount other.length))

/-- Embeds `nextWriteTimestamp`: `alignTimestampToInterval(now, writeInterval)`
when no sample was written yet, otherwise
`lastWrittenTimestamp.Add(writeInterval)`. -/
def nextWriteTimestamp (now : Int) (records : MetricHistory) : Int :=
  if records.lastWrittenTimestamp = goZeroTime then
    alignTimestampToInterval now writeInterval
  else
    records.lastWrittenTimestamp + writeInterval

/-- Embeds the state effect and error result of `writeSamples`, as a function
of the client's `(statusCode, err)` outcome (`hasErr` = the returned `error`
is non-nil).  Branches in source order: a 4xx advances the cursor and zeroes
the query bounds without error; a non-nil error is returned with the records
untouched; a remaining non-2xx status wraps the nil error (`errors.Wrapf`
of nil is nil, so no error is returned and the records stay untouched); a
2xx advances the cursor, extends `queryMaxTime` and seeds `queryMinTime`.
The `Bool` result is true when a non-nil error is returned. -/
def writeSamples (statusCode : Nat) (hasErr : Bool) (timestamp : Int)
    (records : MetricHistory) : MetricHistory × Bool :=
  if statusCode / 100 = 4 then
    (⟨timestamp, goZeroTime, goZeroTime⟩, false)
  else if hasErr then
    (records, true)
  else if statusCode / 100 ≠ 2 then
    (records, false)
  else
    (⟨timestamp,
      (if records.queryMinTime = goZeroTime then timestamp else records.queryMinTime),
      timestamp⟩, false)

/-- Embeds the write loop of `RunInner`: writes at every expected timestamp
up to `now`, breaking out of the loop when `writeSamples` returns an error.
`outcome` maps each write timestamp to the client's `(statusCode, err)`
result; the rate limiter only throttles and is dropped from the model.  The
`Bool` result records whether the loop was aborted by a write error.  Fuel
bounds the number of iterations (the Go loop terminates because the cursor
advances by `writeInterval` per successful tick). -/
def writeLoop (outcome : Int → Nat × Bool) (now : Int) :
    Nat → MetricHistory → MetricHistory × Bool
  | 0, records => (records, false)
  | fuel + 1, records =>
    let timestamp := nextWriteTimestamp now records
    if now < timestamp then
      (records, false)
    else
      let oc := outcome timestamp
      let step := writeSamples oc.1 oc.2 timestamp records
      if step.2 then
        (step.1, true)
      else
        writeLoop outcome now fuel step.1

/-- Embeds `randTime(min, max)`: uniform whole-second time in `[min, max)`,
or `min` when the span is not positive.  `randInt` models `rand.Int63n`
(returning a value in `[0, delta)` for the given positive `delta`);
`Unix()` is floor division of milliseconds by 1000, `time.Unix(sec, 0)` is
`sec * 1000` milliseconds. -/
def randTime (randInt : Int → Int) (lo hi : Int) : Int :=
  let delta := hi / 1000 - lo / 1000
  if delta ≤ 0 then
    lo
  else
    (randInt delta + lo / 1000) * 1000

/-- Embeds `getQueryTimeRanges(now, records) → (ranges, instants, err)`.
`maxQueryAge` is `cfg.MaxQueryAge` in milliseconds; `none` models the two
error returns (no valid time range to query). -/
def getQueryTimeRanges (randInt : Int → Int) (now maxQueryAge : Int)
    (records : MetricHistory) : Option (List (Int × Int) × List Int) :=
  if records.queryMinTime = goZeroTime ∨ records.queryMaxTime = goZeroTime then
    none
  else
    let adjustedQueryMinTime := maxTime records.queryMinTime (now - maxQueryAge)
    if records.queryMaxTime < adjustedQueryMinTime then
      none
    else
      let lastHour :=
        if now - 3600000 < records.queryMaxTime then
          ([(maxTime adjustedQueryMinTime (now - 3600000), minTime records.queryMaxTime now)],
           [minTime records.queryMaxTime now])
        else ([], [])
      let lastDay :=
        if now - 86400000 < records.queryMaxTime ∧ adjustedQueryMinTime < now - 3600000 then
          ([(maxTime adjustedQueryMinTime (now - 86400000), minTime records.queryMaxTime now)],
           [maxTime adjustedQueryMinTime (now - 86400000)])
        else ([], [])
      let dayBoundary :=
        if adjustedQueryMinTime < now - 82800000 ∧ now - 82800000 < records.queryMaxTime then
          [(maxTime adjustedQueryMinTime (now - 86400000),
            minTime records.queryMaxTime (now - 82800000))]
        else []
      let randMinTime := randTime randInt adjustedQueryMinTime records.queryMaxTime
      some (lastHour.1 ++ lastDay.1 ++ dayBoundary ++
              [(randMinTime, randTime randInt randMinTime records.queryMaxTime)],
            lastHour.2 ++ lastDay.2 ++ [randMinTime])

/-- Embeds the state effect of `recoverPast`, as a function of the
`(from, to)` range found by `findPreviouslyWrittenTimeRange`.  An unusable
range (a zero endpoint, or a newest sample older than `now - writeMaxAge`)
leaves the records untouched; otherwise the range becomes the query bounds
and the write cursor.  The `Bool` mirrors the returned `error`, which is nil
on every path. -/
def recoverPast (now fromTs toTs : Int) (records : MetricHistory) :
    MetricHistory × Bool :=
  if fromTs = goZeroTime ∨ toTs = goZeroTime then
    (records, false)
  else if toTs < now - writeMaxAge then
    (records, false)
  else
    (⟨toTs, fromTs, toTs⟩, false)

/-- The loop of `findPreviouslyWrittenTimeRange`.  `client` is the oracle for
`client.QueryRange(query, start, end, step)` (`none` = query error); the
state is the moving `end`, the two accumulators (query results prepended,
oldest → newest) and the `(from, to)` named results (initially zero).  Fuel
bounds the iterations (the Go loop terminates because `end` moves back by
almost 24h per iteration and is bounded by `now - cfg.MaxQueryAge`). -/
def findRangeLoop (client : Int → Int → Int → Option Matrix)
    (generateValue : Int → ℚ) (numSeries : Nat) (maxQueryAge now : Int) :
    Nat → Int → List SamplePair → List SampleHistogramPair → Int × Int → Int × Int
  | 0, _, _, _, found => found
  | fuel + 1, endTs, samples, histograms, found =>
    let start := alignTimestampToInterval
      (maxTime (now - maxQueryAge) (endTs - 86400000 + writeInterval)) writeInterval
    if ¬ start < endTs then
      found
    else
      match client start endTs writeInterval with
      | none => found
      | some [] => found
      | some (_ :: _ :: _) => found
      | some [stream] =>
        let samples' := stream.values ++ samples
        let histograms' := stream.histograms ++ histograms
        let endTs' := start - writeInterval
        if samples'.length > 0 ∧ histograms'.length = 0 then
          let verified := verifySamplesSum [⟨samples', []⟩] numSeries writeInterval generateValue
          if verified.1 = -1 then
            found
          else
            let fromTs := (samples'.getD verified.1.toNat ⟨0, 0⟩).timestamp
            let toTs := (samples'.getD (samples'.length - 1) ⟨0, 0⟩).timestamp
            if verified.1 ≠ 0 ∨ (samples'.getD 0 ⟨0, 0⟩).timestamp ≠ start then
              (fromTs, toTs)
            else
              findRangeLoop client generateValue numSeries maxQueryAge now
                fuel endTs' samples' histograms' (fromTs, toTs)
        else if histograms'.length > 0 ∧ samples'.length = 0 then
          let verified := verifySamplesSum [⟨[], histograms'⟩] numSeries writeInterval generateValue
          if verified.1 = -1 then
            found
          else
            let fromTs := (histograms'.getD verified.1.toNat ⟨0, none⟩).timestamp
            let toTs := (histograms'.getD (histograms'.length - 1) ⟨0, none⟩).timestamp
            if verified.1 ≠ 0 ∨ (histograms'.getD 0 ⟨0, none⟩).timestamp ≠ start then
              (fromTs, toTs)
            else
              findRangeLoop client generateValue numSeries maxQueryAge now
                fuel endTs' samples' histograms' (fromTs, toTs)
        else
          found

/-- Embeds `findPreviouslyWrittenTimeRange`: backward scan in 24h windows
starting from `now` aligned down to the write interval, with both
accumulators empty and a zero `(from, to)`. -/
def findPreviouslyWrittenTimeRange (fuel : Nat)
    (client : Int → Int → Int → Option Matrix) (generateValue : Int → ℚ)
    (numSeries : Nat) (maxQueryAge now : Int) : Int × Int :=
  findRangeLoop client generateValue numSeries maxQueryAge now fuel
    (alignTimestampToInterval now writeInterval) [] [] (goZeroTime, goZeroTime)

/-- Minute-of-hour of a UTC time given in Unix seconds
(Go `time.Time.Minute()`). -/
def minuteOfTime (t : Int) : Int :=
  (t / 60) % 60

/-- Embeds `generateHistogramIntValue(t, gauge)`: the Unix second, negated on
gauge profiles during even-numbered minutes.  `t` is in Unix seconds. -/
def generateHistogramIntValue (t : Int) (gauge : Bool) : Int :=
  if gauge && (minuteOfTime t % 2 == 0) then -t else t

/-- Embeds `generateHistogramFloatValue(t, gauge)`: the Unix second divided
by 500000, negated on gauge profiles during even-numbered minutes. -/
def generateHistogramFloatValue (t : Int) (gauge : Bool) : ℚ :=
  let v : ℚ := (t : ℚ) / 500000
  if gauge && (minuteOfTime t % 2 == 0) then -v else v

/-- Embeds `generateExpHistogramIntValue`: the expected sum,
`float64(generateHistogramIntValue(t, gauge)) * 10`. -/
def generateExpHistogramIntValue (t : Int) (gauge : Bool) : ℚ :=
  (generateHistogramIntValue t gauge : ℚ) * 10

/-- Embeds `generateExpHistogramFloatValue`: the expected sum,
`generateHistogramFloatValue(t, gauge) * 10`. -/
def generateExpHistogramFloatValue (t : Int) (gauge : Bool) : ℚ :=
  generateHistogramFloatValue t gauge * 10

/-- Embeds `histogram.Span`. -/
structure BucketSpan where
  offset : Int
  length : Nat
deriving DecidableEq, Repr

/-- Embeds `histogram.Histogram` (integer native histogram), with `Sum` as a
rational (it is a `float64` in Go) and the `CounterResetHint` reduced to the
gauge flag the generator sets. -/
structure IntHistogram where
  sum : ℚ
  count : Int
  zeroThreshold : ℚ
  schema : Int
  positiveSpans : List BucketSpan
  negativeSpans : List BucketSpan
  positiveBuckets : List Int
  negativeBuckets : List Int
  gaugeHint : Bool
deriving DecidableEq, Repr

/-- Embeds `histogram.FloatHistogram`. -/
structure FloatHistogram where
  sum : ℚ
  count : ℚ
  zeroThreshold : ℚ
  schema : Int
  positiveSpans : List BucketSpan
  negativeSpans : List BucketSpan
  positiveBuckets : List ℚ
  negativeBuckets : List ℚ
  gaugeHint : Bool
deriving DecidableEq, Repr

/-- The bucket-span layout shared by all four generator constructors. -/
def generatorSpans : List BucketSpan :=
  [⟨0, 1⟩, ⟨3, 1⟩, ⟨2, 2⟩]

/-- Embeds `generatePosIntHistogram(value)`:
`Sum = float64(value * 10)`, `Count = uint64(value * 4)`. -/
def generatePosIntHistogram (value : Int) : IntHistogram :=
  ⟨(value * 10 : Int), value * 4, 1/1000, 2, generatorSpans, generatorSpans,
   [value, 0, 0, 0], [0, 0, 0, 0], false⟩

/-- Embeds `generateNegIntHistogram(value)`:
`Sum = float64(value * -10)`, `Count = uint64(value * 4)`. -/
def generateNegIntHistogram (value : Int) : IntHistogram :=
  ⟨(value * -10 : Int), value * 4, 1/1000, 2, generatorSpans, generatorSpans,
   [0, 0, 0, 0], [value, 0, 0, 0], false⟩

/-- Embeds `generatePosFloatHistogram(value)`:
`Sum = value * 10`, `Count = value * 4`. -/
def generatePosFloatHistogram (value : ℚ) : FloatHistogram :=
  ⟨value * 10, value * 4, 1/1000, 2, generatorSpans, generatorSpans,
   [value, value, value, value], [0, 0, 0, 0], false⟩

/-- Embeds `generateNegFloatHistogram(value)`:
`Sum = value * -10`, `Count = value * 4`. -/
def generateNegFloatHistogram (value : ℚ) : FloatHistogram :=
  ⟨value * -10, value * 4, 1/1000, 2, generatorSpans, generatorSpans,
   [0, 0, 0, 0], [value, value, value, value], false⟩

/-- Embeds `generateIntHistogram(value, gauge)`: sign of `value` selects the
positive or negative constructor (applied to the magnitude); gauge profiles
mark the histogram with the gauge counter-reset hint. -/
def generateIntHistogram (value : Int) (gauge : Bool) : IntHistogram :=
  let h := if 0 ≤ value then generatePosIntHistogram value
           else generateNegIntHistogram (-value)
  if gauge then { h with gaugeHint := true } else h

/-- Embeds `generateFloatHistogram(value, gauge)`. -/
def generateFloatHistogram (value : ℚ) (gauge : Bool) : FloatHistogram :=
  let h := if 0 ≤ value then generatePosFloatHistogram value
           else generateNegFloatHistogram (-value)
  if gauge then { h with gaugeHint := true } else h

/-- The error shapes distinguished by the classification code of `retry.Do`.
`tag` payloads keep distinct errors distinguishable so that "returns the last
error" is meaningful.  `httpResp` is an error carrying an
`httpgrpc.HTTPResponse` with the given status code; `network` is an error
from which no HTTP response can be extracted. -/
inductive QueryError where
  | apiErr (tag : Nat)
  | canceledErr
  | httpResp (code : Nat) (tag : Nat)
  | network (tag : Nat)
deriving DecidableEq, Repr

/-- `apierror.IsAPIError(err) || errors.Is(err, context.Canceled)`: the
immediately-returned, never-retried classification of `retry.Do`. -/
def isApiOrCanceled : QueryError → Bool
  | .apiErr _ => true
  | .canceledErr => true
  | _ => false

/-- The retry test of `retry.Do`: retry when no HTTP response can be
extracted from the error (`!ok`) or the HTTP status is 5xx
(`httpResp.Code/100 == 5`). -/
def isRetryable : QueryError → Bool
  | .network _ => true
  | .httpResp code _ => code / 100 == 5
  | _ => false

/-- The loop of `retry.Do`.  `handler i` is the result of the wrapped
handler's `Do` on attempt `i` (`Except` error or an abstract response value);
`ctxErr i` tells whether `ctx.Err()` is non-nil at the top of iteration `i`.
State: remaining iterations (`maxRetries - tries`), the `tries` counter and
`lastErr`.  Result: `(response, error, tries at return)` — the third
component is the value `Observe`d by the metrics. -/
def retryDoLoop (handler : Nat → Except QueryError Nat) (ctxErr : Nat → Bool) :
    Nat → Nat → Option QueryError → Option Nat × Option QueryError × Nat
  | 0, tries, lastErr => (none, lastErr, tries)
  | remaining + 1, tries, _ =>
    if ctxErr tries then
      (none, some .canceledErr, tries)
    else
      match handler tries with
      | .ok resp => (some resp, none, tries)
      | .error e =>
        if isApiOrCanceled e then
          (none, some e, tries)
        else if isRetryable e then
          retryDoLoop handler ctxErr remaining (tries + 1) (some e)
        else
          (none, some e, tries)

/-- Embeds `retry.Do`: up to `maxRetries` attempts starting from `tries = 0`
with no last error. -/
def retryDo (maxRetries : Nat) (handler : Nat → Except QueryError Nat)
    (ctxErr : Nat → Bool) : Option Nat × Option QueryError × Nat :=
  retryDoLoop handler ctxErr maxRetries 0 none

/-- The inductive invariant on reachable `MetricHistory` states.  It contains
the spec's invariant (`queryMinTime ≤ queryMaxTime ≤ lastWrittenTimestamp`
whenever both bounds are non-zero; the bounds are zero whenever the cursor
is, i.e. all three are zero together exactly when nothing verified has ever
been written) strengthened with the reachability fact that every non-zero
timestamp is a real (non-negative Unix-epoch) time. -/
def HistoryInv (r : MetricHistory) : Prop :=
  ((r.queryMinTime = goZeroTime ∧ r.queryMaxTime = goZeroTime) ∨
    (0 ≤ r.queryMinTime ∧ r.queryMinTime ≤ r.queryMaxTime ∧
      r.queryMaxTime ≤ r.lastWrittenTimestamp)) ∧
  (r.lastWrittenTimestamp = goZeroTime ∨ 0 ≤ r.lastWrittenTimestamp) ∧
  (r.lastWrittenTimestamp = goZeroTime →
    r.queryMinTime = goZeroTime ∧ r.queryMaxTime = goZeroTime)

/-- A store state with `count` interval-aligned grid samples starting at
`t0`, each carrying exactly the expected (sum-of-series) value of its
timestamp — the shape of the remote data a correct prior run leaves behind. -/
def gridSamples (generateValue : Int → ℚ) (expectedSeries : Nat)
    (t0 step : Int) (count : Nat) : List SamplePair :=
  (List.range count).map
    (fun i : Nat =>
      ⟨t0 + step * (i : Int), generateValue (t0 + step * (i : Int)) * expectedSeries⟩)

/-! ## Theorems -/

lemma compareSampleValues_iff (actual expected : ℚ) :
    compareSampleValues actual expected = true ↔
      |actual - expected| / (1/1000) < 1/1000 := by
  unfold compareSampleValues maxComparisonDelta
  rw [decide_eq_true_eq, abs_div, abs_of_pos (by norm_num : (0:ℚ) < 1/1000)]

/-- C1: the verifier's float comparison accepts a pair exactly when
`|actual − expected| / 0.001 < 0.001`, i.e. when `|actual − expected|`
is below the absolute threshold `10⁻⁶`; for `expected = E = 0.999` (near 1)
and `δ = 0.001`, `actual = E·(1 ± δ²)` is accepted while `actual = E + 2δ`
is rejected.  Float arithmetic is modelled as exact rational arithmetic. -/
theorem compareSampleValues_spec :
    (∀ actual expected : ℚ,
        compareSampleValues actual expected = true ↔
          |actual - expected| / (1/1000) < 1/1000) ∧
    (∀ actual expected : ℚ,
        compareSampleValues actual expected = true ↔
          |actual - expected| < 1/1000000) ∧
    compareSampleValues (999/1000 * (1 + (1/1000) * (1/1000))) (999/1000) = true ∧
    compareSampleValues (999/1000 * (1 - (1/1000) * (1/1000))) (999/1000) = true ∧
    compareSampleValues (999/1000 + 2 * (1/1000)) (999/1000) = false := by
  have habs : ∀ actual expected : ℚ,
      compareSampleValues actual expected = true ↔
        |actual - expected| < 1/1000000 := by
    intro actual expected
    rw [compareSampleValues_iff, div_lt_iff₀ (by norm_num : (0:ℚ) < 1/1000)]
    norm_num
  refine ⟨compareSampleValues_iff, habs, ?_, ?_, ?_⟩
  · rw [habs, abs_lt]
    constructor <;> norm_num
  · rw [habs, abs_lt]
    constructor <;> norm_num
  · rw [Bool.eq_false_iff]
    intro h
    rw [habs, abs_lt] at h
    norm_num at h

lemma generateIntHistogram_sum (value : Int) (gauge : Bool) :
    (generateIntHistogram value gauge).sum = 10 * (value : ℚ) := by
  unfold generateIntHistogram generatePosIntHistogram generateNegIntHistogram
  rcases le_or_lt 0 value with h | h
  · cases gauge <;> simp [h] <;> ring
  · cases gauge <;> simp [not_le.mpr h] <;> ring

lemma generateIntHistogram_count (value : Int) (gauge : Bool) :
    (generateIntHistogram value gauge).count = 4 * |value| := by
  unfold generateIntHistogram generatePosIntHistogram generateNegIntHistogram
  rcases le_or_lt 0 value with h | h
  · cases gauge <;> simp [h, abs_of_nonneg h] <;> ring
  · cases gauge <;> simp [not_le.mpr h, abs_of_neg h] <;> ring

lemma generateFloatHistogram_sum (value : ℚ) (gauge : Bool) :
    (generateFloatHistogram value gauge).sum = 10 * value := by
  unfold generateFloatHistogram generatePosFloatHistogram generateNegFloatHistogram
  rcases le_or_lt 0 value with h | h
  · cases gauge <;> simp [h] <;> ring
  · cases gauge <;> simp [not_le.mpr h] <;> ring

lemma generateFloatHistogram_count (value : ℚ) (gauge : Bool) :
    (generateFloatHistogram value gauge).count = 4 * |value| := by
  unfold generateFloatHistogram generatePosFloatHistogram generateNegFloatHistogram
  rcases le_or_lt 0 value with h | h
  · cases gauge <;> simp [h, abs_of_nonneg h] <;> ring
  · cases gauge <;> simp [not_le.mpr h, abs_of_neg h] <;> ring

/-- C9: for every value and every profile kind, the generated histogram's
`Sum` field is `value × 10` (keeping the sign of `value`) and its `Count` is
`|value| × 4`; consequently at every timestamp the constructed `Sum` equals
the profile's expected-value function `generateExpHistogram...Value`, which
scales the same base value by 10. -/
theorem histogramSum_spec :
    (∀ (value : Int) (gauge : Bool),
        (generateIntHistogram value gauge).sum = 10 * (value : ℚ) ∧
        (generateIntHistogram value gauge).count = 4 * |value|) ∧
    (∀ (value : ℚ) (gauge : Bool),
        (generateFloatHistogram value gauge).sum = 10 * value ∧
        (generateFloatHistogram value gauge).count = 4 * |value|) ∧
    (∀ (t : Int) (gauge : Bool),
        (generateIntHistogram (generateHistogramIntValue t gauge) gauge).sum =
          generateExpHistogramIntValue t gauge ∧
        (generateFloatHistogram (generateHistogramFloatValue t gauge) gauge).sum =
          generateExpHistogramFloatValue t gauge) := by
  refine ⟨fun value gauge => ⟨generateIntHistogram_sum value gauge,
            generateIntHistogram_count value gauge⟩,
          fun value gauge => ⟨generateFloatHistogram_sum value gauge,
            generateFloatHistogram_count value gauge⟩,
          fun t gauge => ⟨?_, ?_⟩⟩
  · rw [generateIntHistogram_sum, generateExpHistogramIntValue]
    ring
  · rw [generateFloatHistogram_sum, generateExpHistogramFloatValue]
    ring

lemma writeSamples_4xx (statusCode : Nat) (hasErr : Bool) (timestamp : Int)
    (records : MetricHistory) (h : statusCode / 100 = 4) :
    writeSamples statusCode hasErr timestamp records =
      (⟨timestamp, goZeroTime, goZeroTime⟩, false) := by
  simp [writeSamples, h]

lemma writeSamples_err (statusCode : Nat) (timestamp : Int)
    (records : MetricHistory) (h : statusCode / 100 ≠ 4) :
    writeSamples statusCode true timestamp records = (records, true) := by
  simp [writeSamples, h]

/-- C2: a write answered with a 4xx status advances `lastWrittenTimestamp`
to the written timestamp, resets both query bounds to the zero time, returns
no error and therefore lets the write loop continue with the next tick; a
write answered with a network error or a 5xx status (a client error is
always non-nil alongside a non-2xx status) leaves the records untouched,
returns an error and makes the write loop abort its remaining ticks. -/
theorem writeSamples_failure_policy :
    (∀ (statusCode : Nat) (hasErr : Bool) (timestamp : Int) (records : MetricHistory),
        statusCode / 100 = 4 →
        writeSamples statusCode hasErr timestamp records =
          (⟨timestamp, goZeroTime, goZeroTime⟩, false)) ∧
    (∀ (statusCode : Nat) (timestamp : Int) (records : MetricHistory),
        statusCode / 100 ≠ 4 →
        writeSamples statusCode true timestamp records = (records, true)) ∧
    (∀ (outcome : Int → Nat × Bool) (now : Int) (fuel : Nat)
        (records : MetricHistory) (statusCode : Nat) (hasErr : Bool),
        outcome (nextWriteTimestamp now records) = (statusCode, hasErr) →
        ¬ now < nextWriteTimestamp now records →
        statusCode / 100 = 4 →
        writeLoop outcome now (fuel + 1) records =
          writeLoop outcome now fuel
            ⟨nextWriteTimestamp now records, goZeroTime, goZeroTime⟩) ∧
    (∀ (outcome : Int → Nat × Bool) (now : Int) (fuel : Nat)
        (records : MetricHistory) (statusCode : Nat),
        outcome (nextWriteTimestamp now records) = (statusCode, true) →
        ¬ now < nextWriteTimestamp now records →
        statusCode / 100 ≠ 4 →
        writeLoop outcome now (fuel + 1) records = (records, true)) := by
  have hstep : ∀ (outcome : Int → Nat × Bool) (now : Int) (fuel : Nat)
      (records : MetricHistory),
      writeLoop outcome now (fuel + 1) records =
        if now < nextWriteTimestamp now records then (records, false)
        else
          let oc := outcome (nextWriteTimestamp now records)
          let step := writeSamples oc.1 oc.2 (nextWriteTimestamp now records) records
          if step.2 then (step.1, true) else writeLoop outcome now fuel step.1 :=
    fun _ _ _ _ => rfl
  refine ⟨writeSamples_4xx, writeSamples_err, ?_, ?_⟩
  · intro outcome now fuel records statusCode hasErr ho hnl h4
    rw [hstep, if_neg hnl]
    simp only [ho, writeSamples_4xx statusCode hasErr _ records h4]
    simp
  · intro outcome now fuel records statusCode ho hnl h4
    rw [hstep, if_neg hnl]
    simp only [ho, writeSamples_err statusCode _ records h4]
    simp

/-- Witness for C2: concrete write outcomes at `now = 0` against the zero
history — a 400 advances the cursor, clears the bounds and lets the loop
continue; a 503 with its client error aborts the loop with the records
untouched. -/
theorem writeSamples_failure_policy_witness :
    writeSamples 400 false 0 zeroHistory = (⟨0, goZeroTime, goZeroTime⟩, false) ∧
    writeSamples 503 true 0 zeroHistory = (zeroHistory, true) ∧
    writeLoop (fun _ => (400, false)) 0 1 zeroHistory =
      writeLoop (fun _ => (400, false)) 0 0
        ⟨nextWriteTimestamp 0 zeroHistory, goZeroTime, goZeroTime⟩ ∧
    writeLoop (fun _ => (503, true)) 0 1 zeroHistory = (zeroHistory, true) :=
  ⟨writeSamples_failure_policy.1 400 false 0 zeroHistory (by norm_num),
   writeSamples_failure_policy.2.1 503 0 zeroHistory (by norm_num),
   writeSamples_failure_policy.2.2.1 (fun _ => (400, false)) 0 0 zeroHistory
     400 false rfl (by decide) (by norm_num),
   writeSamples_failure_policy.2.2.2 (fun _ => (503, true)) 0 0 zeroHistory
     503 rfl (by decide) (by norm_num)⟩

lemma nextWriteTimestamp_nonneg (now : Int) (r : MetricHistory) (hnow : 0 ≤ now)
    (hr : r.lastWrittenTimestamp = goZeroTime ∨ 0 ≤ r.lastWrittenTimestamp) :
    0 ≤ nextWriteTimestamp now r := by
  unfold nextWriteTimestamp alignTimestampToInterval goZeroTime writeInterval at *
  split_ifs with h <;> omega

/-- C5: the history mutations preserve the `MetricHistory` invariant.  The
invariant `HistoryInv` implies the spec's ordering chain when both query
bounds are non-zero (first conjunct); it is preserved by `writeSamples` at
the scheduler's write timestamp under every write outcome and by
`recoverPast` for every scanner result (whose endpoints, when non-zero, are
ordered timestamps of verified samples), and it holds in the initial
nothing-ever-written state. -/
theorem metricHistory_invariant :
    (∀ r : MetricHistory, HistoryInv r →
      r.queryMinTime ≠ goZeroTime → r.queryMaxTime ≠ goZeroTime →
      r.queryMinTime ≤ r.queryMaxTime ∧
        r.queryMaxTime ≤ r.lastWrittenTimestamp) ∧
    (∀ (now : Int) (statusCode : Nat) (hasErr : Bool) (r : MetricHistory),
      0 ≤ now → HistoryInv r →
      HistoryInv (writeSamples statusCode hasErr (nextWriteTimestamp now r) r).1) ∧
    (∀ (now fromTs toTs : Int) (r : MetricHistory),
      HistoryInv r →
      (fromTs = goZeroTime ∨ toTs = goZeroTime ∨ (0 ≤ fromTs ∧ fromTs ≤ toTs)) →
      HistoryInv (recoverPast now fromTs toTs r).1) ∧
    HistoryInv zeroHistory := by
  refine ⟨?_, ?_, ?_, ?_⟩
  · intro r h hmin hmax
    rcases h.1 with ⟨h1, _⟩ | ⟨_, h2, h3⟩
    · exact absurd h1 hmin
    · exact ⟨h2, h3⟩
  · intro now statusCode hasErr r hnow hr
    have ht : 0 ≤ nextWriteTimestamp now r :=
      nextWriteTimestamp_nonneg now r hnow hr.2.1
    by_cases h4 : statusCode / 100 = 4
    · rw [writeSamples_4xx statusCode hasErr _ r h4]
      exact ⟨Or.inl ⟨rfl, rfl⟩, Or.inr ht, fun _ => ⟨rfl, rfl⟩⟩
    · cases hasErr
      · unfold writeSamples
        rw [if_neg h4]
        simp only [Bool.false_eq_true, if_false]
        by_cases h2 : statusCode / 100 = 2
        · rw [if_neg (by simpa using h2)]
          by_cases hmn : r.queryMinTime = goZeroTime
          · rw [if_pos hmn]
            refine ⟨Or.inr ⟨ht, le_refl _, le_refl _⟩, Or.inr ht, fun hz => ?_⟩
            have hz' : nextWriteTimestamp now r = goZeroTime := hz
            exfalso
            unfold goZeroTime at hz'
            omega
          · rw [if_neg hmn]
            obtain ⟨hbounds, hlast0, hzero⟩ := hr
            rcases hbounds with ⟨hc1, _⟩ | ⟨hc1, hc2, hc3⟩
            · exact absurd hc1 hmn
            · have hlast : ¬ r.lastWrittenTimestamp = goZeroTime :=
                fun hz => hmn (hzero hz).1
              have htsval : nextWriteTimestamp now r =
                  r.lastWrittenTimestamp + writeInterval := by
                unfold nextWriteTimestamp
                rw [if_neg hlast]
              refine ⟨Or.inr ⟨hc1, ?_, le_refl _⟩, Or.inr ht, fun hz => ?_⟩
              · show r.queryMinTime ≤ nextWriteTimestamp now r
                unfold writeInterval at htsval
                omega
              · have hz' : nextWriteTimestamp now r = goZeroTime := hz
                exfalso
                unfold goZeroTime at hz'
                omega
        · rw [if_pos h2]
          exact hr
      · rw [writeSamples_err statusCode _ r h4]
        exact hr
  · intro now fromTs toTs r hr hrange
    unfold recoverPast
    split_ifs with hz hstale
    · exact hr
    · exact hr
    · rcases hrange with h | h | ⟨h1, h2⟩
      · exact absurd (Or.inl h) hz
      · exact absurd (Or.inr h) hz
      · refine ⟨Or.inr ⟨h1, h2, le_refl _⟩, Or.inr (le_trans h1 h2), fun hzz => ?_⟩
        have hzz' : toTs = goZeroTime := hzz
        exfalso
        unfold goZeroTime at hzz'
        omega
  · exact ⟨Or.inl ⟨rfl, rfl⟩, Or.inl rfl, fun _ => ⟨rfl, rfl⟩⟩

/-- Witness for C5: the invariant survives a concrete successful write at
`now = 40000` from the zero state, and a concrete recovery of the verified
range `[0, 20000]`. -/
theorem metricHistory_invariant_witness :
    HistoryInv (writeSamples 200 false
      (nextWriteTimestamp 40000 zeroHistory) zeroHistory).1 ∧
    HistoryInv (recoverPast 40000 0 20000 zeroHistory).1 :=
  ⟨metricHistory_invariant.2.1 40000 200 false zeroHistory (by norm_num)
      metricHistory_invariant.2.2.2,
   metricHistory_invariant.2.2.1 40000 0 20000 zeroHistory
      metricHistory_invariant.2.2.2
      (Or.inr (Or.inr ⟨by norm_num, by norm_num⟩))⟩

/-- C7: when the newest recovered timestamp is older than
`now - writeMaxAge` (`writeMaxAge` is 50 minutes), `recoverPast` keeps the
records untouched — the startup zero state stays the zero state — and
returns no error, so the next write starts from `now` aligned down to the
write interval. -/
theorem recoverPast_stale (now fromTs toTs : Int) (r : MetricHistory)
    (h1 : fromTs ≠ goZeroTime) (h2 : toTs ≠ goZeroTime)
    (h3 : toTs < now - writeMaxAge) :
    recoverPast now fromTs toTs r = (r, false) ∧
    writeMaxAge = 50 * 60 * 1000 ∧
    nextWriteTimestamp now zeroHistory =
      alignTimestampToInterval now writeInterval := by
  refine ⟨?_, rfl, ?_⟩
  · unfold recoverPast
    rw [if_neg (by tauto), if_pos h3]
  · unfold nextWriteTimestamp
    rw [if_pos (show zeroHistory.lastWrittenTimestamp = goZeroTime from rfl)]

/-- Witness for C7: a recovered range `[0, 20000]` whose newest sample is
far older than 50 minutes before `now = 100000000` is discarded. -/
theorem recoverPast_stale_witness :
    recoverPast 100000000 0 20000 zeroHistory = (zeroHistory, false) ∧
    writeMaxAge = 50 * 60 * 1000 ∧
    nextWriteTimestamp 100000000 zeroHistory =
      alignTimestampToInterval 100000000 writeInterval :=
  recoverPast_stale 100000000 0 20000 zeroHistory
    (by decide) (by decide) (by decide)

lemma compareSampleValues_self (x : ℚ) : compareSampleValues x x = true := by
  unfold compareSampleValues maxComparisonDelta
  rw [decide_eq_true_eq, sub_self, zero_div, abs_zero]
  norm_num

/-- C3: on a single-series matrix of three samples at `t`, `t + step` and
`t + 3·step` (one missing interval), all carrying the expected value, the
verifier fails with a gap error naming the two timestamps around the gap
(`t + step` and `t + 3·step`, along with the expected `t + 2·step`) and
returns `lastMatchingIdx = 2`, the index of the sample just after the gap. -/
theorem verifySamplesSum_gap (t step : Int) (expectedSeries : Nat)
    (generateValue : Int → ℚ) (hstep : step ≠ 0) :
    verifySamplesSum
        [⟨[⟨t, generateValue t * expectedSeries⟩,
           ⟨t + step, generateValue (t + step) * expectedSeries⟩,
           ⟨t + 3 * step, generateValue (t + 3 * step) * expectedSeries⟩], []⟩]
        expectedSeries step generateValue =
      (2, some (.gap (t + step) (t + 2 * step) (t + 3 * step))) := by
  have harith : t + 3 * step - step = t + 2 * step := by ring
  have hcheck2 : checkSampleAt generateValue expectedSeries step
      [⟨t, generateValue t * expectedSeries⟩,
       ⟨t + step, generateValue (t + step) * expectedSeries⟩,
       ⟨t + 3 * step, generateValue (t + 3 * step) * expectedSeries⟩] 2 = none := by
    simp [checkSampleAt, compareSampleValues_self]
  have hcheck1 : checkSampleAt generateValue expectedSeries step
      [⟨t, generateValue t * expectedSeries⟩,
       ⟨t + step, generateValue (t + step) * expectedSeries⟩,
       ⟨t + 3 * step, generateValue (t + 3 * step) * expectedSeries⟩] 1 =
      some (.gap (t + step) (t + 2 * step) (t + 3 * step)) := by
    simp only [checkSampleAt, List.get?_cons_succ, List.get?_cons_zero,
      compareSampleValues_self, not_true, if_false, harith]
    rw [if_pos (by omega)]
  show verifySamplesFrom generateValue expectedSeries step
      [⟨t, generateValue t * expectedSeries⟩,
       ⟨t + step, generateValue (t + step) * expectedSeries⟩,
       ⟨t + 3 * step, generateValue (t + 3 * step) * expectedSeries⟩] 2 (-1) = _
  rw [show (2 : Nat) = 1 + 1 from rfl]
  rw [verifySamplesFrom, hcheck2, verifySamplesFrom, hcheck1]
  rfl

/-- Witness for C3: the gap theorem at `t = 0`, `step = 20000` (the write
interval), one expected series and the constant-1 expected-value function. -/
theorem verifySamplesSum_gap_witness :
    verifySamplesSum
        [⟨[⟨0, (fun _ : Int => (1 : ℚ)) 0 * (1 : Nat)⟩,
           ⟨0 + 20000, (fun _ : Int => (1 : ℚ)) (0 + 20000) * (1 : Nat)⟩,
           ⟨0 + 3 * 20000, (fun _ : Int => (1 : ℚ)) (0 + 3 * 20000) * (1 : Nat)⟩], []⟩]
        1 20000 (fun _ : Int => (1 : ℚ)) =
      (2, some (.gap (0 + 20000) (0 + 2 * 20000) (0 + 3 * 20000))) :=
  verifySamplesSum_gap 0 20000 1 (fun _ => 1) (by norm_num)

/-- C8: `verifySamplesSum` fails with `lastMatchingIdx = -1` whenever the
matrix does not hold exactly one series, or the single series mixes float
samples with histogram observations, or holds neither. -/
theorem verifySamplesSum_shape (matrix : Matrix) (expectedSeries : Nat)
    (expectedStep : Int) (generateValue : Int → ℚ) :
    (matrix.length ≠ 1 →
      verifySamplesSum matrix expectedSeries expectedStep generateValue =
        (-1, some (.wrongSeriesCount matrix.length))) ∧
    (∀ stream, matrix = [stream] →
      stream.values ≠ [] → stream.histograms ≠ [] →
      verifySamplesSum matrix expectedSeries expectedStep generateValue =
        (-1, some .mixedTypes)) ∧
    (∀ stream, matrix = [stream] →
      stream.values = [] → stream.histograms = [] →
      verifySamplesSum matrix expectedSeries expectedStep generateValue =
        (-1, some .noSamples)) := by
  refine ⟨?_, ?_, ?_⟩
  · intro hlen
    match matrix, hlen with
    | [], _ => rfl
    | [stream], hlen => exact absurd rfl hlen
    | a :: b :: rest, _ => rfl
  · rintro stream rfl hv hh
    have hv' : 0 < stream.values.length := List.length_pos.mpr hv
    have hh' : 0 < stream.histograms.length := List.length_pos.mpr hh
    simp [verifySamplesSum, hv', hh']
  · rintro stream rfl hv hh
    simp [verifySamplesSum, hv, hh]

/-- Witness for C8: an empty matrix, a mixed single-series matrix and an
empty single-series matrix each fail with index `-1`. -/
theorem verifySamplesSum_shape_witness :
    verifySamplesSum [] 1 20000 (fun _ => 1) = (-1, some (.wrongSeriesCount 0)) ∧
    verifySamplesSum [⟨[⟨0, 1⟩], [⟨0, none⟩]⟩] 1 20000 (fun _ => 1) =
      (-1, some .mixedTypes) ∧
    verifySamplesSum [⟨[], []⟩] 1 20000 (fun _ => 1) = (-1, some .noSamples) :=
  ⟨(verifySamplesSum_shape [] 1 20000 (fun _ => 1)).1 (by decide),
   (verifySamplesSum_shape [⟨[⟨0, 1⟩], [⟨0, none⟩]⟩] 1 20000 (fun _ => 1)).2.1
     ⟨[⟨0, 1⟩], [⟨0, none⟩]⟩ rfl (by simp) (by simp),
   (verifySamplesSum_shape [⟨[], []⟩] 1 20000 (fun _ => 1)).2.2
     ⟨[], []⟩ rfl rfl rfl⟩

/-- Counterexample to C4: with `now = 1700000000000` ms, `queryMinTime =
now − 2h`, `queryMaxTime = now − 5m` and a 7-day max query age, the planner
emits the last-24h window — clamped to `[now − 2h, now − 5m]` — as a second
range distinct from the last-1h range `[now − 1h, now − 5m]`, so the 24h
window is not skipped. -/
theorem getQueryTimeRanges_emits_24h :
    getQueryTimeRanges (fun _ => 0) 1700000000000 604800000
        ⟨1699999700000, 1699992800000, 1699999700000⟩ =
      some ([(1699996400000, 1699999700000), (1699992800000, 1699999700000),
             (1699992800000, 1699992800000)],
            [1699999700000, 1699992800000, 1699992800000]) ∧
    ((1699992800000, 1699999700000) : Int × Int) ≠
      (1699996400000, 1699999700000) := by
  exact ⟨rfl, by decide⟩

/-- C4 amended: for a history with `queryMinTime = now − 2h` and
`queryMaxTime = now − 5m` (max query age larger than 2h), `getQueryTimeRanges`
emits the "last 1h" range window `[now − 1h, now − 5m]` with its end instant,
and also emits the "last 24h" window as a second range — clamped to the valid
span `[now − 2h, now − 5m]` — with its start instant, because the adjusted
minimum lies before `now − 1h`; the third range is the random window. -/
theorem getQueryTimeRanges_two_hours (now maxQueryAge last : Int)
    (randInt : Int → Int) (hnow : 0 ≤ now) (hage : 7200000 ≤ maxQueryAge) :
    getQueryTimeRanges randInt now maxQueryAge
        ⟨last, now - 7200000, now - 300000⟩ =
      some ([(now - 3600000, now - 300000), (now - 7200000, now - 300000),
             (randTime randInt (now - 7200000) (now - 300000),
              randTime randInt (randTime randInt (now - 7200000) (now - 300000))
                (now - 300000))],
            [now - 300000, now - 7200000,
             randTime randInt (now - 7200000) (now - 300000)]) := by
  have hadj : maxTime (now - 7200000) (now - maxQueryAge) = now - 7200000 := by
    unfold maxTime
    split_ifs <;> omega
  have h1h : maxTime (now - 7200000) (now - 3600000) = now - 3600000 := by
    unfold maxTime
    split_ifs <;> omega
  have h24 : maxTime (now - 7200000) (now - 86400000) = now - 7200000 := by
    unfold maxTime
    split_ifs <;> omega
  have hmin : minTime (now - 300000) now = now - 300000 := by
    unfold minTime
    split_ifs <;> omega
  simp only [getQueryTimeRanges, goZeroTime, hadj, h1h, h24, hmin]
  split_ifs with c0 c1 c2 c3 c4 <;> first | rfl | (exfalso; omega)

/-- Witness for the amended C4 at `now = 1700000000000` with the constant
zero random source. -/
theorem getQueryTimeRanges_two_hours_witness :
    getQueryTimeRanges (fun _ => 0) 1700000000000 604800000
        ⟨0, 1699992800000, 1699999700000⟩ =
      some ([(1699996400000, 1699999700000), (1699992800000, 1699999700000),
             (1699992800000, 1699992800000)],
            [1699999700000, 1699992800000, 1699992800000]) :=
  getQueryTimeRanges_two_hours 1700000000000 604800000 0 (fun _ => 0)
    (by norm_num) (by norm_num)

lemma isRetryable_not_apiOrCanceled (e : QueryError)
    (h : isRetryable e = true) : isApiOrCanceled e = false := by
  cases e <;> simp_all [isRetryable, isApiOrCanceled]

lemma retryDoLoop_allRetryable (handler : Nat → Except QueryError Nat)
    (errs : Nat → QueryError)
    (herr : ∀ i, handler i = .error (errs i))
    (hretry : ∀ i, isRetryable (errs i) = true) :
    ∀ (remaining tries : Nat) (lastErr : Option QueryError), 0 < remaining →
      retryDoLoop handler (fun _ => false) remaining tries lastErr =
        (none, some (errs (tries + remaining - 1)), tries + remaining) := by
  intro remaining
  induction remaining with
  | zero => intro tries lastErr h; exact absurd h (by omega)
  | succ n ih =>
    intro tries lastErr _
    unfold retryDoLoop
    rw [if_neg (by simp), herr tries]
    simp only [isRetryable_not_apiOrCanceled _ (hretry tries), Bool.false_eq_true,
      if_false, hretry tries, if_true]
    rcases Nat.eq_zero_or_pos n with hn | hn
    · subst hn
      unfold retryDoLoop
      simp
    · rw [ih (tries + 1) (some (errs tries)) hn]
      refine congrArg _ (congrArg₂ _ (congrArg _ (congrArg _ ?_)) ?_) <;> omega

/-- C10: `retry.Do` retries only on a non-HTTP error or an HTTP 5xx error:
when every attempt fails retryably it makes exactly `maxRetries` attempts and
returns the error of the last one; a non-retryable error (client HTTP error
or Prometheus API error) from the first attempt is returned immediately with
no retry, and a cancelled context is returned before any attempt. -/
theorem retryDo_spec :
    (∀ (maxRetries : Nat) (handler : Nat → Except QueryError Nat)
        (errs : Nat → QueryError),
        (∀ i, handler i = .error (errs i)) →
        (∀ i, isRetryable (errs i) = true) →
        1 ≤ maxRetries →
        retryDo maxRetries handler (fun _ => false) =
          (none, some (errs (maxRetries - 1)), maxRetries)) ∧
    (∀ (maxRetries : Nat) (handler : Nat → Except QueryError Nat)
        (e : QueryError),
        1 ≤ maxRetries → handler 0 = .error e → isRetryable e = false →
        retryDo maxRetries handler (fun _ => false) = (none, some e, 0)) ∧
    (∀ (maxRetries : Nat) (handler : Nat → Except QueryError Nat),
        1 ≤ maxRetries →
        retryDo maxRetries handler (fun _ => true) =
          (none, some .canceledErr, 0)) := by
  refine ⟨?_, ?_, ?_⟩
  · intro maxRetries handler errs herr hretry hmax
    unfold retryDo
    rw [retryDoLoop_allRetryable handler errs herr hretry maxRetries 0 none (by omega)]
    simp
  · intro maxRetries handler e hmax h0 hr
    obtain ⟨n, rfl⟩ : ∃ n, maxRetries = n + 1 := ⟨maxRetries - 1, by omega⟩
    unfold retryDo retryDoLoop
    rw [if_neg (by simp), h0]
    cases hA : isApiOrCanceled e <;> simp [hA, hr]
  · intro maxRetries handler hmax
    obtain ⟨n, rfl⟩ : ∃ n, maxRetries = n + 1 := ⟨maxRetries - 1, by omega⟩
    unfold retryDo retryDoLoop
    simp

/-- Witness for C10: three concrete runs — five 5xx failures retried to the
cap, a 400 returned immediately, a cancelled context returned with zero
attempts. -/
theorem retryDo_spec_witness :
    retryDo 3 (fun i => .error (.httpResp 500 i)) (fun _ => false) =
      (none, some (.httpResp 500 2), 3) ∧
    retryDo 3 (fun _ => .error (.httpResp 400 7)) (fun _ => false) =
      (none, some (.httpResp 400 7), 0) ∧
    retryDo 3 (fun _ => .error (.apiErr 5)) (fun _ => true) =
      (none, some .canceledErr, 0) :=
  ⟨retryDo_spec.1 3 _ (fun i => .httpResp 500 i) (fun _ => rfl) (fun _ => rfl)
      (by norm_num),
   retryDo_spec.2.1 3 _ (.httpResp 400 7) (by norm_num) rfl (by decide),
   retryDo_spec.2.2 3 _ (by norm_num)⟩

lemma gridSamples_get_lt (generateValue : Int → ℚ) (expectedSeries : Nat)
    (t0 step : Int) (count i : Nat) (h : i < count) :
    (gridSamples generateValue expectedSeries t0 step count).get? i =
      some ⟨t0 + step * (i : Int),
            generateValue (t0 + step * (i : Int)) * expectedSeries⟩ := by
  unfold gridSamples
  rw [List.get?_eq_getElem?, List.getElem?_map, List.getElem?_range h, Option.map_some']

lemma gridSamples_get_ge (generateValue : Int → ℚ) (expectedSeries : Nat)
    (t0 step : Int) (count i : Nat) (h : count ≤ i) :
    (gridSamples generateValue expectedSeries t0 step count).get? i = none := by
  unfold gridSamples
  rw [List.get?_eq_getElem?, List.getElem?_eq_none]
  rw [List.length_map, List.length_range]
  exact h

lemma gridSamples_length (generateValue : Int → ℚ) (expectedSeries : Nat)
    (t0 step : Int) (count : Nat) :
    (gridSamples generateValue expectedSeries t0 step count).length = count := by
  unfold gridSamples
  rw [List.length_map, List.length_range]

lemma gridSamples_getD (generateValue : Int → ℚ) (expectedSeries : Nat)
    (t0 step : Int) (count i : Nat) (d : SamplePair) (h : i < count) :
    (gridSamples generateValue expectedSeries t0 step count).getD i d =
      ⟨t0 + step * (i : Int),
       generateValue (t0 + step * (i : Int)) * expectedSeries⟩ := by
  rw [List.getD_eq_getElem?_getD, ← List.get?_eq_getElem?,
    gridSamples_get_lt generateValue expectedSeries t0 step count i h]
  rfl

lemma checkSampleAt_grid (generateValue : Int → ℚ) (expectedSeries : Nat)
    (t0 step : Int) (count idx : Nat) (h : idx < count) :
    checkSampleAt generateValue expectedSeries step
      (gridSamples generateValue expectedSeries t0 step count) idx = none := by
  unfold checkSampleAt
  rw [gridSamples_get_lt generateValue expectedSeries t0 step count idx h]
  simp only [compareSampleValues_self, not_true, if_false]
  rcases lt_or_ge (idx + 1) count with h1 | h1
  · rw [gridSamples_get_lt generateValue expectedSeries t0 step count (idx + 1) h1]
    have heq : t0 + step * (idx : Int) =
        t0 + step * ((idx + 1 : Nat) : Int) - step := by
      push_cast
      ring
    simp [heq]
  · rw [gridSamples_get_ge generateValue expectedSeries t0 step count (idx + 1) h1]

lemma verifySamplesFrom_grid (generateValue : Int → ℚ) (expectedSeries : Nat)
    (t0 step : Int) (count : Nat) :
    ∀ (idx : Nat) (lastMatchingIdx : Int), idx < count →
      verifySamplesFrom generateValue expectedSeries step
        (gridSamples generateValue expectedSeries t0 step count) idx
        lastMatchingIdx = (0, none) := by
  intro idx
  induction idx with
  | zero =>
    intro lastMatchingIdx h
    rw [verifySamplesFrom,
      checkSampleAt_grid generateValue expectedSeries t0 step count 0 h]
  | succ i ih =>
    intro lastMatchingIdx h
    rw [verifySamplesFrom,
      checkSampleAt_grid generateValue expectedSeries t0 step count (i + 1) h]
    exact ih _ (Nat.lt_of_succ_lt h)

lemma verifySamplesSum_grid (generateValue : Int → ℚ) (expectedSeries : Nat)
    (t0 step : Int) (count : Nat) (h : 0 < count) :
    verifySamplesSum [⟨gridSamples generateValue expectedSeries t0 step count, []⟩]
      expectedSeries step generateValue = (0, none) := by
  obtain ⟨k, rfl⟩ : ∃ k, count = k + 1 := ⟨count - 1, by omega⟩
  have hS : decide ((gridSamples generateValue expectedSeries t0 step (k + 1)).length > 0) =
      true := by
    rw [gridSamples_length]
    exact decide_eq_true (Nat.succ_pos k)
  unfold verifySamplesSum
  simp only [hS, List.length_nil, gt_iff_lt, lt_irrefl, decide_False, Bool.and_false,
    Bool.not_true, Bool.false_and, Bool.not_false, ite_false, if_false]
  rw [gridSamples_length]
  exact verifySamplesFrom_grid generateValue expectedSeries t0 step (k + 1) k (-1)
    (Nat.lt_succ_self k)

set_option maxRecDepth 8000 in
/-- C6: when the store holds exactly three hours of valid, gap-free,
correctly-valued, interval-aligned history — 541 samples one write interval
apart, whose oldest sample lies strictly inside the first scanned 24h window,
so the write interval before it is missing — the recovery scan returns
exactly that range `(fromTs, fromTs + 3h)`, and `recoverPast` (the newest
sample being within the staleness bound) installs it: `queryMinTime = fromTs`
and `queryMaxTime = lastWrittenTimestamp = fromTs + 3h`. -/
theorem recoveryScan_spec (fuel : Nat)
    (client : Int → Int → Int → Option Matrix) (generateValue : Int → ℚ)
    (numSeries : Nat) (maxQueryAge now fromTs : Int)
    (hage : now - maxQueryAge ≤
      alignTimestampToInterval now writeInterval - 86400000 + writeInterval)
    (hclient : client
        (alignTimestampToInterval now writeInterval - 86400000 + writeInterval)
        (alignTimestampToInterval now writeInterval) writeInterval =
      some [⟨gridSamples generateValue numSeries fromTs writeInterval 541, []⟩])
    (hfrom : alignTimestampToInterval now writeInterval - 86400000 + writeInterval
      < fromTs)
    (hstale : ¬ fromTs + 10800000 < now - writeMaxAge)
    (hfz : fromTs ≠ goZeroTime) (htz : fromTs + 10800000 ≠ goZeroTime) :
    findPreviouslyWrittenTimeRange (fuel + 1) client generateValue numSeries
        maxQueryAge now = (fromTs, fromTs + 10800000) ∧
    recoverPast now fromTs (fromTs + 10800000) zeroHistory =
      (⟨fromTs + 10800000, fromTs, fromTs + 10800000⟩, false) := by
  have hstart : alignTimestampToInterval
      (maxTime (now - maxQueryAge)
        (alignTimestampToInterval now writeInterval - 86400000 + writeInterval))
      writeInterval =
      alignTimestampToInterval now writeInterval - 86400000 + writeInterval := by
    unfold alignTimestampToInterval maxTime writeInterval goZeroTime
    unfold alignTimestampToInterval writeInterval goZeroTime at hage
    split_ifs <;> omega
  have hSA : alignTimestampToInterval now writeInterval - 86400000 + writeInterval <
      alignTimestampToInterval now writeInterval := by
    unfold writeInterval
    omega
  constructor
  · unfold findPreviouslyWrittenTimeRange
    rw [findRangeLoop]
    rw [hstart]
    rw [if_neg (not_not_intro hSA)]
    rw [hclient]
    simp only [List.append_nil, List.nil_append]
    rw [if_pos (show (gridSamples generateValue numSeries fromTs writeInterval 541).length > 0 ∧
        ([] : List SampleHistogramPair).length = 0 by
      rw [gridSamples_length]
      norm_num)]
    rw [verifySamplesSum_grid generateValue numSeries fromTs writeInterval 541 (by norm_num)]
    rw [gridSamples_length]
    rw [gridSamples_getD generateValue numSeries fromTs writeInterval 541
      (((0 : Int), (none : Option VerifyError)).1.toNat) ⟨0, 0⟩ (by norm_num)]
    rw [gridSamples_getD generateValue numSeries fromTs writeInterval 541
      (541 - 1) ⟨0, 0⟩ (by norm_num)]
    rw [gridSamples_getD generateValue numSeries fromTs writeInterval 541
      0 ⟨0, 0⟩ (by norm_num)]
    rw [if_neg (show ¬ ((0 : Int), (none : Option VerifyError)).1 = -1 by norm_num)]
    simp only [Int.toNat_zero, Nat.cast_zero, mul_zero, add_zero]
    rw [if_pos (Or.inr (show fromTs ≠
      alignTimestampToInterval now writeInterval - 86400000 + writeInterval by omega))]
    simp only [writeInterval]
    norm_num
  · unfold recoverPast
    rw [if_neg (by tauto), if_neg hstale]

/-- Witness for C6: a store holding 541 correct samples, 20 s apart, covering
`[now - 200min, now - 20min]` (the sample at `now - 200min - 20s` missing),
scanned at `now = 1700000000000` with a 7-day max query age. -/
theorem recoveryScan_spec_witness :
    findPreviouslyWrittenTimeRange 1
        (fun _ _ _ =>
          some [⟨gridSamples (fun _ => (1 : ℚ)) 1 1699988000000 20000 541, []⟩])
        (fun _ => (1 : ℚ)) 1 604800000 1700000000000 =
      (1699988000000, 1699998800000) ∧
    recoverPast 1700000000000 1699988000000 1699998800000 zeroHistory =
      (⟨1699998800000, 1699988000000, 1699998800000⟩, false) :=
  recoveryScan_spec 0
    (fun _ _ _ =>
      some [⟨gridSamples (fun _ => (1 : ℚ)) 1 1699988000000 20000 541, []⟩])
    (fun _ => (1 : ℚ)) 1 604800000 1700000000000 1699988000000
    (by decide) rfl (by decide) (by decide) (by decide) (by decide)

end Mimir
